import Mathlib

/-!
Verification of the BotOrNot media-provenance inference pipeline.

Shallow embedding of the JavaScript sources:
  * src/src/aiDetector.js        (unified scorer, `AIDetector`)
  * src/src/headerParser.js      (container parser, `HeaderParser`)
  * src/src/js/cgiDetector.js    (pixel statistics, `CGIDetector`)
  * src/unnamed/part_006         (`SimpleSignatureDb`)

Modelling conventions:
  * Byte buffers (`Uint8Array`) are `List Nat`, each entry in 0..255.
  * JavaScript numbers are `Int`/`Nat` where the code only produces
    integers, and `Rat` where genuine division occurs; `<< 24 | ...`
    reads of 4 bytes go through `asInt32` (signed 32-bit), matching
    JavaScript's ToInt32 coercion of bitwise operators.
  * Out-of-range `uint8Array[i]` is `undefined` in JavaScript; where the
    code then applies bitwise operators the result coerces to 0
    (`byteAt` below), and where it compares with `<` the comparison is
    false (modelled by explicit `Option` matches at those sites).
  * `TextDecoder('utf-8', fatal:false)` is modelled on its ASCII
    fragment: bytes < 0x80 decode to themselves, any other byte to
    U+FFFD.  All texts the theorems touch are pure ASCII, where this
    model is exact.
  * Case-insensitive regular-expression tests in the source are
    modelled as decidable substring predicates on lowercased text;
    `[-_\s]?` character classes become a choice among "", "-", "_",
    " " (the whitespace class is approximated by the space character).
-/

/-- JavaScript `String.prototype.includes`: substring containment. -/
def strContains (s sub : String) : Bool :=
  decide (sub.data <:+: s.data)

/-- JavaScript `String.prototype.toLowerCase`: lowercase each
character. -/
def jsToLower (s : String) : String :=
  String.mk (s.data.map Char.toLower)

/-- Read `uint8Array[i]` in a context where the value feeds a bitwise
operator: out-of-range access yields `undefined`, which ToInt32 maps
to 0. -/
def byteAt (b : List Nat) (i : Int) : Nat :=
  if 0 ≤ i then b.getD i.toNat 0 else 0

/-- JavaScript's `(b0 << 24) | (b1 << 16) | (b2 << 8) | b3` for byte
values: the exact value, wrapped to a signed 32-bit integer. -/
def asInt32 (n : Nat) : Int :=
  let m := n % 4294967296
  if m < 2147483648 then (m : Int) else (m : Int) - 4294967296

/-- Big-endian 32-bit read at `o` through JavaScript bitwise-or
(signed), used for PNG chunk lengths and MP4 atom sizes. -/
def be32At (b : List Nat) (o : Int) : Int :=
  asInt32 (byteAt b o * 16777216 + byteAt b (o + 1) * 65536 +
           byteAt b (o + 2) * 256 + byteAt b (o + 3))

/-- `uint8Array.slice(s, e)` with non-negative indices (clamping). -/
def jsSlice (b : List Nat) (s e : Nat) : List Nat :=
  (b.drop s).take (e - s)

/-- `TextDecoder('utf-8', {fatal:false}).decode`, modelled on its ASCII
fragment: non-ASCII bytes each become the replacement character. -/
def decodeBytes (b : List Nat) : String :=
  String.mk (b.map (fun v => if v < 128 then Char.ofNat v else Char.ofNat 65533))

/-- `String.fromCharCode(...bytes)`: each byte value is a code unit. -/
def fromCharCodes (b : List Nat) : String :=
  String.mk (b.map Char.ofNat)

/-- `encodeURIComponent`-free ASCII text to bytes, for building test
inputs (inverse of `decodeBytes` on ASCII). -/
def asciiBytes (s : String) : List Nat :=
  s.data.map Char.toNat

/-- `s.substring(a, e)` (JavaScript), for the in-range uses the source
makes of it. -/
def jsSubstring (s : String) (a e : Nat) : String :=
  String.mk ((s.data.drop a).take (e - a))

/-- A signature match record as pushed onto `results.signatures`
(duck-typed in the source; the fields every code path populates). -/
structure Signature where
  tool : String
  signature : String
  stype : String
  confidence : String
  source : String
  details : String
deriving Repr, DecidableEq

/-- The record returned by the signature database's
`containsAISignature` (the fields `checkForAISignatures` reads). -/
structure DbMatch where
  tool : String
  signature : String
  dtype : String
  confidence : String
deriving Repr, DecidableEq

/-- The mutable `results` object threaded through `HeaderParser`
methods: recovered metadata fields, signature matches, detail lines and
the debug log. -/
structure ParseState where
  rawMetadata : List (String × String)
  signatures : List Signature
  details : List String
  parseLog : List String
deriving Repr, DecidableEq

/-- Empty `results` accumulator. -/
def initState : ParseState := ⟨[], [], [], []⟩

/-- `HeaderParser.debugLog`: set to `false` in the constructor
("Disable detailed logging for production"). -/
def debugLog : Bool := false

/-- `HeaderParser.log`: appends to `parseLog` only when `debugLog` is
set; with the shipped `debugLog = false` it never records anything. -/
def plog (st : ParseState) (msg : String) : ParseState :=
  if debugLog then { st with parseLog := st.parseLog ++ [msg] } else st

/-! ## SimpleSignatureDb (src/unnamed/part_006) -/

/-- `\b\w` word characters for `formatToolName`. -/
def isWordChar (c : Char) : Bool :=
  c.isAlphanum || c == Char.ofNat 95

/-- Helper for `formatToolName`: uppercase every word character that
follows a non-word character (the `/\b\w/g` replacement). -/
def capWords : List Char → Bool → List Char
  | [], _ => []
  | c :: rest, prevWord =>
      (if isWordChar c && !prevWord then c.toUpper else c) ::
        capWords rest (isWordChar c)

/-- `SimpleSignatureDb.formatToolName`: replace `-`/`_` by spaces, then
title-case word starts. -/
def formatToolName (s : String) : String :=
  String.mk (capWords (s.data.map (fun c => if c == '-' || c == '_' then ' ' else c)) false)

/-- The match object `SimpleSignatureDb.containsAISignature` builds for
a catalog entry. -/
def mkDbMatch (s : String) : DbMatch :=
  ⟨formatToolName s, s, "text-signature", "high"⟩

/-- The predicate deciding whether one catalog entry fires on a text:
entries of (lowercased) length ≤ 2 are skipped, otherwise
case-insensitive substring containment. -/
def catalogHit (text : String) (s : String) : Bool :=
  2 < (jsToLower s).length && strContains (jsToLower text) (jsToLower s)

/-- `SimpleSignatureDb.containsAISignature` (src/unnamed/part_006):
walks the catalog in order and returns on the FIRST entry that fires
(`return` inside the `for` loop); empty text is falsy and yields null. -/
def containsAISignature (catalog : List String) (text : String) : Option DbMatch :=
  if text.length = 0 then none
  else (catalog.find? (catalogHit text)).map mkDbMatch

/-- Spec-side definition for claim C5: ALL catalog entries that fire on
the text (the "collect all matches" reading of the spec). -/
def allCatalogMatches (catalog : List String) (text : String) : List String :=
  catalog.filter (catalogHit text)

/-! ## HeaderParser.checkForAISignatures

The parser is constructed over a signature database; the concrete
`SignatureDatabase` class used by `AIDetector` is not among the
sources, so the database is abstracted as an oracle
`db : String → Option DbMatch` (instantiable by
`containsAISignature catalog`). -/

/-- `HeaderParser.checkForAISignatures`: guard on very short text, query
the database, and push at most one signature plus a detail line. -/
def checkForAISignatures (db : String → Option DbMatch)
    (text source : String) (st : ParseState) : ParseState :=
  if text.length < 2 then st
  else
    match db text with
    | none => st
    | some m =>
        { st with
          signatures := st.signatures ++
            [⟨m.tool, m.signature, m.dtype, m.confidence, source,
              "Found in " ++ source ++ ": \"" ++ m.signature ++ "\""⟩],
          details := st.details ++
            ["AI signature detected in " ++ source ++ ": " ++ m.signature] }

/-- `HeaderParser.calculateConfidence`: ordinal combination of the
per-match confidence tiers. -/
def calculateConfidence (sigs : List Signature) : String :=
  if sigs.length = 0 then "none"
  else
    let h := (sigs.filter (fun s => s.confidence == "high")).length
    let m := (sigs.filter (fun s => s.confidence == "medium")).length
    let l := (sigs.filter (fun s => s.confidence == "low")).length
    if 1 ≤ h then "high"
    else if 2 ≤ h + m then "high"
    else if 1 ≤ m then "medium"
    else if 2 ≤ l then "medium"
    else if 1 ≤ l then "low"
    else "none"

/-- Spec-side aggregate-confidence rule, written from claim C4's words:
high if ≥1 high or (high+medium) ≥ 2; else medium if ≥1 medium or ≥2
low; else low if exactly 1 low; else none. -/
def specAggregateConfidence (sigs : List Signature) : String :=
  let h := (sigs.filter (fun s => s.confidence == "high")).length
  let m := (sigs.filter (fun s => s.confidence == "medium")).length
  let l := (sigs.filter (fun s => s.confidence == "low")).length
  if 1 ≤ h ∨ 2 ≤ h + m then "high"
  else if 1 ≤ m ∨ 2 ≤ l then "medium"
  else if l = 1 then "low"
  else "none"

/-! ## AIDetector scoring (src/src/aiDetector.js) -/

/-- The "obvious AI tool" name list shared by
`calculateSignatureScore` and `hasObviousAISignatures`. -/
def obviousAITools : List String :=
  ["midjourney", "ideogram", "dall-e", "dalle", "stable diffusion", "firefly",
   "leonardo", "runway", "artbreeder", "deepart", "nightcafe", "craiyon",
   "jasper", "canva ai", "adobe firefly", "bing image creator"]

/-- `sig.tool?.toLowerCase().includes(tool) ||
sig.signature?.toLowerCase().includes(tool)` over the obvious-tool
list. -/
def isObviousSig (s : Signature) : Bool :=
  obviousAITools.any (fun t =>
    strContains (jsToLower s.tool) t || strContains (jsToLower s.signature) t)

/-- Per-signature points of the non-obvious branch of
`calculateSignatureScore`'s `switch`. -/
def confPoints (c : String) : Int :=
  if c == "high" then 25 else if c == "medium" then 15 else if c == "low" then 8 else 0

/-- `AIDetector.calculateSignatureScore`.  Note the faithful modelling
of the source's `forEach` callback: its `return 100` for an obvious AI
tool only exits the callback, so an obvious match contributes 0 points
and iteration continues with the next signature. -/
def calculateSignatureScore (sigs : List Signature) : Int :=
  if sigs.length = 0 then 0
  else
    let score := sigs.foldl
      (fun score sig =>
        if isObviousSig sig then score else score + confPoints sig.confidence) 0
    let score := if 1 < sigs.length then score + min ((sigs.length : Int) * 3) 15 else score
    min score 80

/-- `AIDetector.hasObviousAISignatures`. -/
def hasObviousAISignatures (sigs : List Signature) : Bool :=
  sigs.any isObviousSig

/-- Result object of `AIDetector.simpleColorCount` (both the success
path and the catch fallback); `metricsUniqueColors` is the nested
`metrics.uniqueColors` field. -/
structure SimpleColorResult where
  isCGI : Bool
  confidence : Nat
  uniqueColors : Nat
  reason : String
  metricsUniqueColors : Nat
deriving Repr, DecidableEq

/-- Indices visited by a `for (i = 0; i < len; i += step)` loop. -/
def strideIdx (len step : Nat) : List Nat :=
  (List.range ((len + step - 1) / step)).map (fun k => k * step)

/-- The `a < 128` transparent-pixel skip: an out-of-range alpha is
`undefined` and `undefined < 128` is false, so the pixel is NOT
skipped. -/
def skipTransparent (pixels : List Nat) (i : Nat) : Bool :=
  match pixels.get? (i + 3) with
  | some a => a < 128
  | none => false

/-- One channel of a quantized color key: `Math.floor(v/q)*q`
stringified; a missing channel is `undefined`, whose arithmetic gives
`NaN`. -/
def channelKey (pixels : List Nat) (i q : Nat) : String :=
  match pixels.get? i with
  | some v => toString (v / q * q)
  | none => "NaN"

/-- The template-string color key `r,g,b` after quantization by `q`. -/
def colorKeyAt (pixels : List Nat) (i q : Nat) : String :=
  channelKey pixels i q ++ "," ++ channelKey pixels (i + 1) q ++ "," ++
    channelKey pixels (i + 2) q

/-- `AIDetector.simpleColorCount` success path: stride-4 walk of the
RGBA buffer, alpha-128 skip, channels quantized to multiples of 8, set
size of the color keys; CGI iff fewer than 200 unique colors. -/
def simpleColorCount (pixels : List Nat) : SimpleColorResult :=
  let keys := (strideIdx pixels.length 4).filterMap
    (fun i => if skipTransparent pixels i then none else some (colorKeyAt pixels i 8))
  let u := keys.dedup.length
  let cgi := u < 200
  ⟨cgi, if cgi then 100 else 0, u,
    if cgi then
      "Limited color palette (" ++ toString u ++ " colors) indicates CGI/AI generation"
    else "Rich color palette (" ++ toString u ++ " colors) suggests natural image",
    u⟩

/-- `AIDetector.simpleColorCount` catch branch: the value returned when
pixel access throws (cross-origin canvas taint).  Note that it reports
`metrics.uniqueColors = 0`. -/
def simpleColorCountCatch (errMsg : String) : SimpleColorResult :=
  ⟨false, 0, 0, "Color analysis failed: " ++ errMsg, 0⟩

/-- `AIDetector.calculateCGIScore`: 0 unless CGI, else the 0-100
confidence rescaled to 0-30 and rounded. -/
def calculateCGIScore (c : SimpleColorResult) : Int :=
  if !c.isCGI then 0 else round ((c.confidence : ℚ) / 100 * 30)

/-- `AIDetector.calculateURLScore`.  The missing `SignatureDatabase`
class's `checkUrlPatterns`/`checkFilenamePatterns` results are
abstracted by their confidence fields (`none` = no pattern matched). -/
def calculateURLScore (urlPattern filenamePattern : Option String) : Int :=
  let score : Int :=
    match urlPattern with
    | none => 0
    | some c => if c == "high" then 15 else if c == "medium" then 10 else if c == "low" then 5 else 0
  let score : Int :=
    match filenamePattern with
    | none => score
    | some c =>
        if c == "high" then score + min 10 (20 - score)
        else if c == "medium" then score + min 6 (20 - score)
        else if c == "low" then score + min 3 (20 - score)
        else score
  min score 20

/-- `AIDetector.calculateUnifiedConfidence`: fixed score bands. -/
def calculateUnifiedConfidence (aiScore : Int) : String :=
  if 75 ≤ aiScore then "high"
  else if 50 ≤ aiScore then "medium"
  else if 25 ≤ aiScore then "low"
  else "none"

/-- The CGI signature `analyzeMedia` appends when `cgiAnalysis.isCGI`. -/
def cgiDetectionSignature (c : SimpleColorResult) : Signature :=
  ⟨"CGI Detection", toString c.uniqueColors ++ " unique colors", "color-analysis",
   "high", "Color count analysis",
   "Limited color palette (" ++ toString c.uniqueColors ++ " colors) indicates CGI/AI generation"⟩

/-- The fields of `AIDetector.analyzeMedia`'s result that the claims
concern. -/
structure Outcome where
  aiScore : Int
  isAI : Bool
  confidence : String
  signatures : List Signature
deriving Repr, DecidableEq

/-- The scoring core of `AIDetector.analyzeMedia` (src/src/aiDetector.js
lines 33-123): signature score, CGI score (only when an image element
was sampled: `cgi = some _`), URL score, the `hasObviousAI` /
`hasDefinitiveAI` overrides, the unified score capped at 100, the
`isAI` threshold 15 and the confidence bands.  Presentation-only
fields (`details`, `detectedTool`, `fileInfo`) are omitted. -/
def analyzeMediaOutcome (sigs : List Signature) (cgi : Option SimpleColorResult)
    (urlPattern filenamePattern : Option String) : Outcome :=
  let signatureScore := calculateSignatureScore sigs
  let cgiScore : Int := match cgi with | none => 0 | some c => calculateCGIScore c
  let sigs2 := match cgi with
    | some c => if c.isCGI then sigs ++ [cgiDetectionSignature c] else sigs
    | none => sigs
  let urlScore := calculateURLScore urlPattern filenamePattern
  let contextScore : Int := 0
  let hasObviousAI := hasObviousAISignatures sigs
  let hasDefinitiveAI := match cgi with
    | some c => decide (c.metricsUniqueColors < 50)
    | none => false
  let aiScore : Int :=
    if hasObviousAI || hasDefinitiveAI then 100
    else min (signatureScore + cgiScore + urlScore + contextScore) 100
  ⟨aiScore, decide (15 ≤ aiScore), calculateUnifiedConfidence aiScore, sigs2⟩

/-! ## CGIDetector pixel statistics (src/src/js/cgiDetector.js) -/

/-- Metrics object shape shared by the pixel-statistics paths; the
source stores a percentage, a fraction or 0.5 in `gradientRatio`
(field renamed `gradientRate` here). -/
structure PixelMetrics where
  uniqueColors : Nat
  gradientRate : ℚ
deriving Repr, DecidableEq

/-- The smooth-transition comparison of the first
`CGIDetector.analyzePixelPatterns` (lines 141-181): compare with the
pixel 16 bytes ahead when in range; a missing channel makes the
difference `NaN`, which is never `< 30`. -/
def smoothStep16 (pixels : List Nat) (i : Nat) : Bool :=
  if i + 16 < pixels.length then
    match pixels.get? i, pixels.get? (i + 1), pixels.get? (i + 2),
        pixels.get? (i + 16), pixels.get? (i + 17), pixels.get? (i + 18) with
    | some r, some g, some b, some nr, some ng, some nb =>
        ((r : Int) - nr).natAbs + ((g : Int) - ng).natAbs + ((b : Int) - nb).natAbs < 30
    | _, _, _, _, _, _ => false
  else false

/-- First `CGIDetector.analyzePixelPatterns` (src/src/js/cgiDetector.js
lines 141-181): stride-16 sampling; per sampled opaque pixel one
neighbour comparison and one 32-level quantized color key; returns
`uniqueColors` and `Math.round(gradientRatio * 100)` — an integer
PERCENTAGE stored in the `gradientRatio` field. -/
def analyzePixelPatternsA (pixels : List Nat) : PixelMetrics :=
  let sampled := (strideIdx pixels.length 16).filter (fun i => !skipTransparent pixels i)
  let totalPixels := sampled.length
  let gradientPixels := (sampled.filter (fun i => smoothStep16 pixels i)).length
  let keys := sampled.map (fun i => colorKeyAt pixels i 32)
  let gradientRate : ℚ := if 0 < totalPixels then (gradientPixels : ℚ) / totalPixels else 0
  ⟨keys.dedup.length, (round (gradientRate * 100) : Int)⟩

/-- `CGIDetector.getFallbackAnalysis` (lines 123-134): the neutral
CORS fallback metric pair, tagged `corsBlocked`. -/
structure FallbackMetrics where
  uniqueColors : Nat
  gradientRate : ℚ
  corsBlocked : Bool
  fallback : Bool
deriving Repr, DecidableEq

/-- `CGIDetector.getFallbackAnalysis`: 500 unique colors (below no CGI
threshold), mid-range gradient ratio, `corsBlocked = true`. -/
def getFallbackAnalysis : FallbackMetrics :=
  ⟨500, 1 / 2, true, true⟩

/-- Neighbour comparison of the second `CGIDetector.analyzePixelPatterns`
(lines 321-378) against the pixel `d` bytes ahead (4 = right
neighbour, 1200 = bottom neighbour): returns `none` when the guard
`i + d < pixels.length` fails, otherwise whether the Manhattan
distance is below 20 (missing channels give `NaN`, never `< 20`). -/
def smoothStepB (pixels : List Nat) (i d : Nat) : Option Bool :=
  if i + d < pixels.length then
    match pixels.get? i, pixels.get? (i + 1), pixels.get? (i + 2),
        pixels.get? (i + d), pixels.get? (i + d + 1), pixels.get? (i + d + 2) with
    | some r, some g, some b, some nr, some ng, some nb =>
        some (((r : Int) - nr).natAbs + ((g : Int) - ng).natAbs + ((b : Int) - nb).natAbs < 20)
    | _, _, _, _, _, _ => some false
  else none

/-- Second `CGIDetector.analyzePixelPatterns` (src/src/js/cgiDetector.js
lines 321-378): stride-4 walk; 8-level quantized unique colors over
opaque pixels; right- and bottom-neighbour smooth transitions; returns
the fraction `smoothTransitions / totalComparisons` rounded to two
decimals (`parseFloat(x.toFixed(2))`). -/
def analyzePixelPatternsB (pixels : List Nat) : PixelMetrics :=
  let opq := (strideIdx pixels.length 4).filter (fun i => !skipTransparent pixels i)
  let keys := opq.map (fun i => colorKeyAt pixels i 8)
  let comparisons := opq.flatMap (fun i =>
    (smoothStepB pixels i 4).toList ++ (smoothStepB pixels i 1200).toList)
  let totalComparisons := comparisons.length
  let smoothTransitions := (comparisons.filter id).length
  let gradientRate : ℚ :=
    if 0 < totalComparisons then (smoothTransitions : ℚ) / totalComparisons else 0
  ⟨keys.dedup.length, (round (gradientRate * 100) : Int) / 100⟩

/-! ## HeaderParser.analyzeAIParameters and PNG text chunks -/

/-- The Stable-Diffusion parameter vocabulary of
`HeaderParser.analyzeAIParameters` (line 727). -/
def sdParams : List String :=
  ["steps:", "sampler:", "cfg scale:", "seed:", "size:", "model hash:", "model:",
   "negative prompt:"]

/-- Claim C6's fixed six-token vocabulary (spec side). -/
def sdParamsSix : List String :=
  ["steps:", "sampler:", "cfg scale:", "seed:", "model hash:", "negative prompt:"]

/-- Number of claim-C6 vocabulary tokens contained in the lowercased
text. -/
def sdSixCount (text : String) : Nat :=
  (sdParamsSix.filter (fun p => strContains (jsToLower text) p)).length

/-- `HeaderParser.analyzeAIParameters` (src/src/headerParser.js lines
722-811): parameter-block detector plus the DALL-E / Midjourney /
Ideogram / Leonardo / generic keyword detectors, each appending one
signature. -/
def analyzeAIParameters (text ctype keyword : String) (st : ParseState) : ParseState :=
  let lowerText := jsToLower text
  let lowerKeyword := jsToLower keyword
  let foundSdParams := sdParams.filter (fun p => strContains lowerText p)
  let st :=
    if 2 ≤ foundSdParams.length then
      { st with signatures := st.signatures ++
        [⟨"stable-diffusion", "Parameter block", "parameters", "high",
          "PNG " ++ ctype ++ " " ++ (if keyword ≠ "" then "(" ++ keyword ++ ")" else ""),
          "Found SD parameters: " ++ String.intercalate ", " foundSdParams⟩] }
    else st
  let st :=
    if strContains lowerText "dall" || strContains lowerKeyword "dall" ||
        strContains lowerText "openai" || strContains lowerKeyword "openai" then
      { st with signatures := st.signatures ++
        [⟨"dall-e", (if keyword ≠ "" then keyword else "DALL-E metadata"), "metadata", "high",
          "PNG " ++ ctype,
          "DALL-E signature in " ++
            (if keyword ≠ "" then "keyword \"" ++ keyword ++ "\"" else "text content")⟩] }
    else st
  let st :=
    if strContains lowerText "midjourney" || strContains lowerKeyword "midjourney" ||
        strContains lowerText "--ar" || strContains lowerText "--v " ||
        strContains lowerText "--stylize" then
      { st with signatures := st.signatures ++
        [⟨"midjourney", (if keyword ≠ "" then keyword else "Midjourney metadata"), "metadata",
          "high", "PNG " ++ ctype,
          "Midjourney signature in " ++
            (if keyword ≠ "" then "keyword \"" ++ keyword ++ "\"" else "text content")⟩] }
    else st
  let st :=
    if strContains lowerText "ideogram" || strContains lowerKeyword "ideogram" ||
        strContains lowerText "ideogram ai" || strContains lowerKeyword "ideogram ai" then
      { st with signatures := st.signatures ++
        [⟨"ideogram", (if keyword ≠ "" then keyword else "Ideogram AI metadata"), "metadata",
          "high", "PNG " ++ ctype,
          "Ideogram AI signature in " ++
            (if keyword ≠ "" then "keyword \"" ++ keyword ++ "\"" else "text content")⟩] }
    else st
  let st :=
    if strContains lowerText "leonardo" || strContains lowerKeyword "leonardo" ||
        strContains lowerText "leonardo ai" || strContains lowerKeyword "leonardo ai" then
      { st with signatures := st.signatures ++
        [⟨"leonardo", (if keyword ≠ "" then keyword else "Leonardo AI metadata"), "metadata",
          "high", "PNG " ++ ctype,
          "Leonardo AI signature in " ++
            (if keyword ≠ "" then "keyword \"" ++ keyword ++ "\"" else "text content")⟩] }
    else st
  if strContains lowerText "generated" || strContains lowerText "artificial" ||
      strContains lowerText "synthetic" || strContains lowerText "ai created" then
    { st with signatures := st.signatures ++
      [⟨"generic-ai", (if keyword ≠ "" then keyword else "AI metadata"), "metadata", "medium",
        "PNG " ++ ctype,
        "AI generation signature in " ++
          (if keyword ≠ "" then "keyword \"" ++ keyword ++ "\"" else "text content")⟩] }
  else st

/-- Split a byte list at its first NUL, when one exists
(`chunkData.indexOf(0)`). -/
def splitFirstNul : List Nat → Option (List Nat × List Nat)
  | [] => none
  | 0 :: rest => some ([], rest)
  | b :: rest => (splitFirstNul rest).map (fun p => (b :: p.1, p.2))

/-- The iTXt scan of `parsePNGTextChunk`: collect up to `n`
NUL-delimited segments, returning them with the unconsumed
remainder. -/
def itxtCollect : Nat → List Nat → List (List Nat) × List Nat
  | 0, l => ([], l)
  | n + 1, l =>
      match splitFirstNul l with
      | none => ([], l)
      | some (seg, rest) =>
          let p := itxtCollect n rest
          (seg :: p.1, p.2)

/-- `HeaderParser.parsePNGTextChunk` (lines 629-719): keyword/text
extraction per chunk type, raw-metadata storage, signature checks on
keyword and text, and the AI-parameter analysis. -/
def parsePNGTextChunk (db : String → Option DbMatch) (chunkData : List Nat)
    (ctype : String) (chunkNumber : Nat) (st : ParseState) : ParseState :=
  let kt : String × String :=
    if ctype = "tEXt" then
      match splitFirstNul chunkData with
      | some (k, t) => (decodeBytes k, decodeBytes t)
      | none => ("", decodeBytes chunkData)
    else if ctype = "iTXt" then
      let p := itxtCollect 4 chunkData
      let parts := p.1.map decodeBytes ++ (if p.2 ≠ [] then [decodeBytes p.2] else [])
      (parts.getD 0 "", parts.getD 4 "")
    else if ctype = "zTXt" then
      match splitFirstNul chunkData with
      | some (k, r) =>
          -- nullIndex + 2 < chunkData.length ⟺ the remainder after the
          -- NUL has at least 2 bytes (compression method + data)
          if 2 ≤ r.length then (decodeBytes k, decodeBytes (r.drop 1))
          else ("", decodeBytes chunkData)
      | none => ("", decodeBytes chunkData)
    else ("", "")
  let keyword := kt.1
  let text := kt.2
  let st :=
    if keyword ≠ "" then
      { st with rawMetadata := st.rawMetadata ++ [("PNG_" ++ ctype ++ "_" ++ keyword, text)] }
    else
      { st with rawMetadata := st.rawMetadata ++
          [("PNG_" ++ ctype ++ "_" ++ toString chunkNumber, text)] }
  let st :=
    if 0 < keyword.length then
      checkForAISignatures db keyword ("PNG " ++ ctype ++ " keyword") st
    else st
  if 0 < text.length then
    analyzeAIParameters text ctype keyword
      (checkForAISignatures db text ("PNG " ++ ctype ++ " text") st)
  else st

/-! ## HeaderParser.parsePNGEXIF (lines 463-529)

The `/gi` regular-expression tests are modelled as substring predicates
over the lowercased text; optional separator classes `[-_\s]?` /
`[-\s]?` become a choice of separators, `\s*` a choice of "" or one
space, and `.*` an ordered-occurrence check. -/

/-- Separator choices for `[-_\s]?`. -/
def sepOptA : List String := ["", "-", "_", " "]

/-- Separator choices for `[-\s]?`. -/
def sepOptB : List String := ["", "-", " "]

/-- `pre[-_\s]?post`-style test over lowercased text. -/
def sep1Test (seps : List String) (t pre post : String) : Bool :=
  seps.any (fun a => strContains t (pre ++ a ++ post))

/-- `pre[-_\s]?mid[-_\s]?post`-style test. -/
def sep2Test (seps : List String) (t pre mid post : String) : Bool :=
  seps.any (fun a => seps.any (fun b => strContains t (pre ++ a ++ mid ++ b ++ post)))

/-- `pre\s*post` test (zero whitespace or one space). -/
def wsStarTest (t pre post : String) : Bool :=
  strContains t (pre ++ post) || strContains t (pre ++ " " ++ post)

/-- `pre.*post` test: `post` occurs after some occurrence of `pre`. -/
def dotStarTest (t pre post : String) : Bool :=
  match t.splitOn pre with
  | [] => false
  | [_] => false
  | _ :: rest => strContains (String.intercalate pre rest) post

/-- The prioritized AI-signature pattern list of `parsePNGEXIF`,
evaluated against the lowercased eXIf text: (fires?, tool,
confidence). -/
def pngExifPatterns (t : String) : List (Bool × String × String) :=
  [(sep2Test sepOptA t "nano" "banana" "2025", "nano-banana", "high"),
   (sep1Test sepOptA t "nano" "banana", "nano-banana", "high"),
   (wsStarTest t "google" "ai", "nano-banana", "medium"),
   (wsStarTest t "ideogram" "ai", "ideogram", "high"),
   (strContains t "ideogram", "ideogram", "medium"),
   (sep1Test sepOptB t "dall" "e", "dall-e", "high"),
   (strContains t "midjourney", "midjourney", "high"),
   (sep1Test sepOptB t "stable" "diffusion", "stable-diffusion", "high"),
   (strContains t "firefly", "firefly", "high"),
   (strContains t "leonardo", "leonardo", "high"),
   (dotStarTest t "adobe" "firefly", "firefly", "high"),
   (strContains t "generated", "generic-ai", "medium"),
   (strContains t "artificial", "generic-ai", "medium")]

/-- The `foundSignature` loop of `parsePNGEXIF`: remember the first
match; a `nano-banana` match overrides and breaks. -/
def pngExifScan : Option (String × String) → List (Bool × String × String) →
    Option (String × String)
  | found, [] => found
  | found, (fires, tool, conf) :: rest =>
      if fires then
        let f2 := match found with | none => some (tool, conf) | some x => some x
        if tool = "nano-banana" then some (tool, conf)
        else pngExifScan f2 rest
      else pngExifScan found rest

/-- `HeaderParser.parsePNGEXIF`: store the raw text, scan the pattern
list, push the single best signature. -/
def parsePNGEXIF (exifData : List Nat) (st : ParseState) : ParseState :=
  let exifText := decodeBytes exifData
  let st := { st with rawMetadata := st.rawMetadata ++
      [("PNG_eXIf_Raw", jsSubstring exifText 0 500)] }
  let found := pngExifScan none (pngExifPatterns (jsToLower exifText))
  let st :=
    match found with
    | none => st
    | some (tool, conf) =>
        { st with signatures := st.signatures ++
          [⟨tool, "PNG eXIf metadata", "metadata", conf, "PNG eXIf chunk",
            "AI signature \"" ++ tool ++ "\" found in PNG eXIf metadata"⟩] }
  if 0 < exifText.length then
    { st with rawMetadata := st.rawMetadata ++
        [("PNG_eXIf_Content", jsSubstring exifText 0 1000)] }
  else st

/-! ## HeaderParser.parseC2PA (lines 1086-1213)

Modelled over the lowercased text (all its patterns are
case-insensitive); the captured `claim_generator` value is therefore
lowercased here, which is observationally equivalent for
`isAIGenerator` (it lowercases its input). -/

/-- `HeaderParser.isAIGenerator`: AI-tool substring check over the
lowercased claim generator. -/
def isAIGenerator (generator : String) : Bool :=
  ["dall-e", "dalle", "midjourney", "stable diffusion", "firefly", "leonardo",
   "runway", "imagen", "artbreeder", "nightcafe", "playground", "craiyon",
   "comfyui", "automatic1111", "invokeai", "photoshop", "adobe", "openai",
   "anthropic", "claude", "chatgpt", "gpt", "ai", "artificial intelligence"
  ].any (fun tool => strContains (jsToLower generator) tool)

/-- Capture `([^q]+)` delimited by `openC`/`closeC` following
`token\s*` in `t` (the `/"field":\s*"(...)"/` captures): text after the
first occurrence of `token`, spaces skipped, must open with `openC` and
contain a non-empty run up to `closeC`. -/
def captureDelimitedAfter (t token : String) (openC closeC : Char) : Option String :=
  match t.splitOn token with
  | [] => none
  | [_] => none
  | _ :: rest =>
      let cs := (String.intercalate token rest).data.dropWhile (fun c => c = ' ')
      match cs with
      | [] => none
      | c :: body =>
          if c = openC then
            let v := body.takeWhile (fun d => d ≠ closeC)
            if v ≠ [] ∧ (body.drop v.length).take 1 = [closeC] then some (String.mk v)
            else none
          else none

/-- `/\{[\s\S]*\}/`: the greedy brace match, from the first opening to
the last closing brace. -/
def extractJson (s : String) : Option String :=
  match s.data.findIdx? (fun c => c = Char.ofNat 123),
      s.data.reverse.findIdx? (fun c => c = Char.ofNat 125) with
  | some i, some rj =>
      let j := s.data.length - 1 - rj
      if i < j then some (String.mk ((s.data.drop i).take (j + 1 - i))) else none
  | _, _ => none

/-- `HeaderParser.extractC2PAFields`: claim generator, assertions and
ingredients captures. -/
def extractC2PAFields (jsonContent : String) (fileType : String)
    (st : ParseState) : ParseState :=
  let st :=
    match captureDelimitedAfter jsonContent "\"claim_generator\":"
        (Char.ofNat 34) (Char.ofNat 34) with
    | none => st
    | some generator =>
        let st := { st with rawMetadata := st.rawMetadata ++
            [(fileType ++ "_C2PA_Generator", generator)] }
        if isAIGenerator generator then
          { st with signatures := st.signatures ++
            [⟨"c2pa-ai", generator, "ai-tool", "high",
              fileType ++ " C2PA Claim Generator",
              "AI tool detected in C2PA claim generator: " ++ generator⟩] }
        else st
  let st :=
    match captureDelimitedAfter jsonContent "\"assertions\":"
        (Char.ofNat 91) (Char.ofNat 93) with
    | none => st
    | some assertions =>
        { st with rawMetadata := st.rawMetadata ++
            [(fileType ++ "_C2PA_Assertions", jsSubstring assertions 0 500)] }
  match captureDelimitedAfter jsonContent "\"ingredients\":"
      (Char.ofNat 91) (Char.ofNat 93) with
  | none => st
  | some ingredients =>
      { st with rawMetadata := st.rawMetadata ++
          [(fileType ++ "_C2PA_Ingredients", jsSubstring ingredients 0 500)] }

/-- The C2PA pattern table of `parseC2PA` over the lowercased text. -/
def c2paFoundPatterns (t : String) : List String :=
  (([(strContains t "c2pa", "C2PA Signature"),
     (strContains t "http://c2pa.org", "C2PA Schema"),
     (wsStarTest t "\"@context\":" "\"http://c2pa.org", "C2PA Context"),
     (strContains t "\"claim_generator\":", "Claim Generator"),
     (strContains t "\"assertions\":", "Assertions"),
     (strContains t "\"ingredient\":", "Ingredient"),
     (strContains t "\"manifest\":", "Manifest"),
     (strContains t "\"signature\":", "Signature")] :
    List (Bool × String)).filter (fun p => p.1)).map (fun p => p.2)

/-- `HeaderParser.parseC2PA`. -/
def parseC2PA (c2paData : List Nat) (fileType : String) (st : ParseState) : ParseState :=
  let textContent := decodeBytes c2paData
  let st := { st with rawMetadata := st.rawMetadata ++
      [(fileType ++ "_C2PA_Raw", "Binary data: " ++ toString c2paData.length ++ " bytes")] }
  let foundPatterns := c2paFoundPatterns (jsToLower textContent)
  if foundPatterns ≠ [] then
    let st := { st with rawMetadata := st.rawMetadata ++
        [(fileType ++ "_C2PA_Patterns", String.intercalate ", " foundPatterns)] }
    let st :=
      match extractJson (jsToLower textContent) with
      | none => st
      | some jsonContent =>
          extractC2PAFields jsonContent fileType
            { st with rawMetadata := st.rawMetadata ++
                [(fileType ++ "_C2PA_JSON", jsSubstring jsonContent 0 1000)] }
    { st with
      signatures := st.signatures ++
        [⟨"c2pa", "C2PA Content Authenticity", "authenticity", "high",
          fileType ++ " C2PA",
          "Found C2PA metadata with patterns: " ++ String.intercalate ", " foundPatterns⟩],
      details := st.details ++
        ["C2PA Content Authenticity metadata detected in " ++ fileType] }
  else
    { st with rawMetadata := st.rawMetadata ++
        [(fileType ++ "_C2PA_Unknown",
          "Unknown C2PA format: " ++ toString c2paData.length ++ " bytes")] }

/-! ## HeaderParser.parsePNG (lines 532-626) -/

/-- The PNG signature bytes. -/
def pngSignatureBytes : List Nat := [137, 80, 78, 71, 13, 10, 26, 10]

/-- The signature-verification loop at the top of `parsePNG`. -/
def pngSigValid (b : List Nat) : Bool :=
  (List.range 8).all (fun i => b.get? i == some (pngSignatureBytes.getD i 0))

/-- The IHDR branch of the chunk loop: dimensions and (out-of-range,
hence `undefined`) bit-depth/color-type fields. -/
def ihdrProcess (b : List Nat) (offset : Nat) (st : ParseState) : ParseState :=
  let chunkData := jsSlice b (offset + 8) (offset + 16)
  let width := be32At chunkData 0
  let height := be32At chunkData 4
  let bd := match chunkData.get? 8 with | some v => toString v | none => "undefined"
  let ct := match chunkData.get? 9 with | some v => toString v | none => "undefined"
  { st with rawMetadata := st.rawMetadata ++
      [("PNG_dimensions", toString width ++ "x" ++ toString height),
       ("PNG_bit_depth", bd), ("PNG_color_type", ct)] }

/-- The chunk-walking loop of `HeaderParser.parsePNG`: read the declared
length (signed 32-bit) and the type; stop on an invalid length, on
IEND, when the next chunk would run past the buffer, or after 1000
chunks; otherwise dispatch on the chunk type and advance by
`8 + length + 4`. -/
def parsePNGLoop (db : String → Option DbMatch) (b : List Nat)
    (offset cnt : Nat) (st : ParseState) : ParseState :=
  if h : (offset : Int) < (b.length : Int) - 12 then
    let clen := be32At b offset
    let ctype := fromCharCodes (jsSlice b (offset + 4) (offset + 8))
    let cnt1 := cnt + 1
    if clen < 0 ∨ (b.length : Int) - offset - 12 < clen then
      plog st ("Invalid chunk length " ++ toString clen ++
        ", file may be corrupted. Stopping parse.")
    else
      let dataLen := clen.toNat
      let st1 := { st with rawMetadata := st.rawMetadata ++
          [("PNG_chunk_" ++ toString cnt1 ++ "_" ++ ctype, toString clen ++ " bytes")] }
      let st2 :=
        if ctype = "tEXt" ∨ ctype = "iTXt" ∨ ctype = "zTXt" then
          parsePNGTextChunk db (jsSlice b (offset + 8) (offset + 8 + dataLen)) ctype cnt1 st1
        else if ctype = "eXIf" then
          parsePNGEXIF (jsSlice b (offset + 8) (offset + 8 + dataLen)) st1
        else if ctype = "c2pa" then
          parseC2PA (jsSlice b (offset + 8) (offset + 8 + dataLen)) "PNG" st1
        else if ctype = "IHDR" then
          if 8 ≤ dataLen then ihdrProcess b offset st1 else st1
        else st1
      if ctype = "IEND" then st2
      else
        let nextOffset := offset + 8 + dataLen + 4
        if nextOffset ≤ offset then st2
        else if (b.length : Int) < (nextOffset : Int) then st2
        else if 1000 < cnt1 then st2
        else parsePNGLoop db b nextOffset cnt1 st2
  else st
termination_by b.length - offset
decreasing_by simp_wf; omega

/-- `HeaderParser.parsePNG`: verify the 8 signature bytes, then walk
chunks from offset 8. -/
def parsePNG (db : String → Option DbMatch) (b : List Nat) (st : ParseState) : ParseState :=
  if pngSigValid b then parsePNGLoop db b 8 0 st else st

/-! ## HeaderParser.parseMP4 (lines 889-911) -/

/-- `uint8Array.slice(s, e)` with JavaScript's negative-index
(from-the-end) semantics. -/
def jsSliceInt (b : List Nat) (s e : Int) : List Nat :=
  let len : Int := b.length
  let s2 := if s < 0 then max (len + s) 0 else min s len
  let e2 := if e < 0 then max (len + e) 0 else min e len
  (b.drop s2.toNat).take (e2.toNat - s2.toNat)

/-- The metadata atom-type list of `parseMP4`.  The source file's
literals are the mojibake strings "¬©too"/"¬©swr" (five characters), so
they can never equal a four-character atom type. -/
def mp4MetaTypes : List String := ["udta", "meta", "¬©too", "¬©swr"]

/-- The box-walking loop of `HeaderParser.parseMP4`, with fuel: `none`
means the fuel ran out before the loop exited.  Faithful to
`offset += atomSize || 1`: a non-zero atom size — negative included —
is taken as the step. -/
def parseMP4Loop (db : String → Option DbMatch) (b : List Nat) :
    Int → ParseState → Nat → Option ParseState
  | _, _, 0 => none
  | offset, st, Nat.succ fuel =>
      if offset < (b.length : Int) - 8 then
        let atomSize := be32At b offset
        let atomType := fromCharCodes (jsSliceInt b (offset + 4) (offset + 8))
        let st2 :=
          if mp4MetaTypes.contains atomType then
            let text := decodeBytes (jsSliceInt b (offset + 8) (offset + atomSize))
            checkForAISignatures db text ("MP4 " ++ atomType)
              { st with rawMetadata := st.rawMetadata ++ [("MP4_" ++ atomType, text)] }
          else st
        parseMP4Loop db b (offset + (if atomSize = 0 then 1 else atomSize)) st2 fuel
      else some st

/-- `HeaderParser.parseMP4`: walk boxes from offset 0. -/
def parseMP4 (db : String → Option DbMatch) (b : List Nat) (st : ParseState)
    (fuel : Nat) : Option ParseState :=
  parseMP4Loop db b 0 st fuel

/-! ## HeaderParser.detectFileType (lines 98-190) -/

/-- JPEG magic: FF D8 FF (also the JPEG rule of the spec's magic-byte
table). -/
def jpegCond (b : List Nat) : Bool :=
  b.get? 0 == some 255 && b.get? 1 == some 216 && b.get? 2 == some 255

/-- PNG magic: 89 50 4E 47. -/
def pngCond (b : List Nat) : Bool :=
  b.get? 0 == some 137 && b.get? 1 == some 80 && b.get? 2 == some 78 && b.get? 3 == some 71

/-- GIF magic: "GIF8". -/
def gifCond (b : List Nat) : Bool :=
  b.get? 0 == some 71 && b.get? 1 == some 73 && b.get? 2 == some 70 && b.get? 3 == some 56

/-- RIFF prefix. -/
def riffCond (b : List Nat) : Bool :=
  b.get? 0 == some 82 && b.get? 1 == some 73 && b.get? 2 == some 70 && b.get? 3 == some 70

/-- WebP rule: RIFF plus "WEBP" at offset 8 (length ≥ 12 required by
the code). -/
def webpCond (b : List Nat) : Bool :=
  riffCond b && decide (12 ≤ b.length) &&
    b.get? 8 == some 87 && b.get? 9 == some 69 && b.get? 10 == some 66 && b.get? 11 == some 80

/-- "ftyp" at offset 4. -/
def ftypCond (b : List Nat) : Bool :=
  b.get? 4 == some 102 && b.get? 5 == some 116 && b.get? 6 == some 121 && b.get? 7 == some 112

/-- AVIF rule: ftyp + "avif" brand (length ≥ 12 required). -/
def avifCond (b : List Nat) : Bool :=
  decide (12 ≤ b.length) && ftypCond b &&
    b.get? 8 == some 97 && b.get? 9 == some 118 && b.get? 10 == some 105 && b.get? 11 == some 102

/-- TIFF rule: "II*\0" or "MM\0*". -/
def tiffCond (b : List Nat) : Bool :=
  (b.get? 0 == some 73 && b.get? 1 == some 73 && b.get? 2 == some 42 && b.get? 3 == some 0) ||
  (b.get? 0 == some 77 && b.get? 1 == some 77 && b.get? 2 == some 0 && b.get? 3 == some 42)

/-- MP4 rule: any ftyp brand (length ≥ 8 required). -/
def mp4Cond (b : List Nat) : Bool :=
  decide (8 ≤ b.length) && ftypCond b

/-- WebM rule: EBML signature 1A 45 DF A3. -/
def webmCond (b : List Nat) : Bool :=
  decide (4 ≤ b.length) &&
    b.get? 0 == some 26 && b.get? 1 == some 69 && b.get? 2 == some 223 && b.get? 3 == some 163

/-- AVI rule: RIFF plus "AVI" at offset 8 (the code checks only bytes
8..10, not the trailing space; length ≥ 12 required). -/
def aviCond (b : List Nat) : Bool :=
  decide (12 ≤ b.length) && riffCond b &&
    b.get? 8 == some 65 && b.get? 9 == some 86 && b.get? 10 == some 73

/-- MOV rule: ftyp whose brand contains "qt" (dead code: the MP4 rule
fires first on any ftyp). -/
def movCond (b : List Nat) : Bool :=
  mp4Cond b && strContains (fromCharCodes (jsSlice b 8 12)) "qt"

/-- Disjunction of all magic-byte rules the code implements, in its
priority order. -/
def codeAnyMagic (b : List Nat) : Bool :=
  jpegCond b || pngCond b || gifCond b || webpCond b || avifCond b || tiffCond b ||
    mp4Cond b || webmCond b || aviCond b || movCond b

/-- `HeaderParser.detectFileType`: the priority-ordered magic-byte
dispatch, with the global `length < 4` guard. -/
def detectFileType (b : List Nat) : String :=
  if b.length < 4 then "Unknown"
  else if jpegCond b then "JPEG"
  else if pngCond b then "PNG"
  else if gifCond b then "GIF"
  else if webpCond b then "WebP"
  else if avifCond b then "AVIF"
  else if tiffCond b then "TIFF"
  else if mp4Cond b then "MP4"
  else if webmCond b then "WebM"
  else if aviCond b then "AVI"
  else if movCond b then "MOV"
  else "Unknown"

/-- The container tags `detectFileType` can produce. -/
def containerTags : List String :=
  ["JPEG", "PNG", "GIF", "WebP", "AVIF", "TIFF", "MP4", "WebM", "AVI", "MOV", "Unknown"]

/-! ## Concrete inputs used by the theorems -/

/-- The trivial database oracle: no catalog entry ever matches. -/
def noDb : String → Option DbMatch := fun _ => none

/-- Big-endian 32-bit encoder for building test inputs. -/
def natBe32 (n : Nat) : List Nat :=
  [n / 16777216 % 256, n / 65536 % 256, n / 256 % 256, n % 256]

/-- A 300x300 uniform-color opaque image, modelled by its leading 8
RGBA samples (all further pixels identical): every channel 100, alpha
255. -/
def pixels32 : List Nat := List.flatten (List.replicate 8 [100, 100, 100, 255])

/-- A single high-confidence Midjourney signature match. -/
def mjSig : Signature :=
  ⟨"midjourney", "Midjourney v6", "metadata", "high", "EXIF Software",
   "AI signature found in EXIF metadata"⟩

/-- A two-entry catalog whose entries both occur in `c5Text`. -/
def c5Catalog : List String := ["midjourney", "dall-e"]

/-- A metadata field text containing two distinct catalog
fingerprints. -/
def c5Text : String := "made with midjourney and dall-e"

/-- The spec's scenario-A parameter block. -/
def c6Value : String := "Steps: 20, Sampler: Euler a, CFG scale: 7, Seed: 12345"

/-- `keyword\0value` payload of the scenario-A `tEXt` chunk. -/
def c6ChunkData : List Nat := asciiBytes "parameters" ++ [0] ++ asciiBytes c6Value

/-- A complete PNG: signature, the scenario-A `tEXt` chunk, IEND. -/
def c6Bytes : List Nat :=
  pngSignatureBytes ++ natBe32 c6ChunkData.length ++ asciiBytes "tEXt" ++ c6ChunkData ++
    [0, 0, 0, 0] ++ natBe32 0 ++ asciiBytes "IEND" ++ [0, 0, 0, 0]

/-- A valid PNG signature followed by a chunk declaring length 4096
with only 1 byte of payload space remaining: the malformed-length
input of claim C7. -/
def c7Bad : List Nat :=
  pngSignatureBytes ++ [0, 0, 16, 0] ++ asciiBytes "tEXt" ++ [0, 0, 0, 0, 0]

/-- 32 bytes of MP4 boxes: the box at offset 0 declares size 16, the
box at offset 16 declares size -16 (FF FF FF F0 read as signed 32-bit),
so `offset += atomSize || 1` walks 0 → 16 → 0 → ... forever. -/
def mp4Cyc : List Nat :=
  [0, 0, 0, 16] ++ asciiBytes "free" ++ [0, 0, 0, 0, 0, 0, 0, 0] ++
    [255, 255, 255, 240] ++ asciiBytes "free" ++ [0, 0, 0, 0, 0, 0, 0, 0]

/-- The 3-byte input for claim C10: the full JPEG magic FF D8 FF, but
shorter than `detectFileType`'s global 4-byte minimum. -/
def c10Jpeg3 : List Nat := [255, 216, 255]

/-- The parser state after the scenario-A `tEXt` chunk's bookkeeping:
the chunk-info entry and the stored `parameters` field. -/
def c6StateA : ParseState :=
  ⟨[("PNG_chunk_1_tEXt", "65 bytes"), ("PNG_tEXt_parameters", c6Value)], [], [], []⟩

/-! ## Helper lemmas -/

theorem plog_id (st : ParseState) (msg : String) : plog st msg = st := by
  simp [plog, debugLog]

theorem confPoints_nonneg (c : String) : 0 ≤ confPoints c := by
  unfold confPoints; split_ifs <;> norm_num

/-- The per-signature accumulator of `calculateSignatureScore`. -/
def sigStep (score : Int) (sig : Signature) : Int :=
  if isObviousSig sig then score else score + confPoints sig.confidence

theorem sigStep_ge (score : Int) (sig : Signature) : score ≤ sigStep score sig := by
  unfold sigStep; split_ifs with h
  · exact le_refl _
  · have := confPoints_nonneg sig.confidence; omega

theorem foldl_sigStep_ge (l : List Signature) : ∀ z : Int, z ≤ l.foldl sigStep z := by
  induction l with
  | nil => intro z; exact le_refl _
  | cons a t ih =>
      intro z
      calc z ≤ sigStep z a := sigStep_ge z a
        _ ≤ (a :: t).foldl sigStep z := by simpa using ih (sigStep z a)

theorem calculateSignatureScore_eq_foldl (sigs : List Signature) :
    calculateSignatureScore sigs =
      (if sigs.length = 0 then 0 else
        min ((if 1 < sigs.length then
          sigs.foldl sigStep 0 + min ((sigs.length : Int) * 3) 15
        else sigs.foldl sigStep 0)) 80) := by
  unfold calculateSignatureScore sigStep
  rfl

theorem sigscore_ge_25 (sigs : List Signature)
    (h : ∃ s ∈ sigs, s.confidence = "high" ∧ isObviousSig s = false) :
    25 ≤ calculateSignatureScore sigs := by
  obtain ⟨s, hmem, hconf, hobv⟩ := h
  obtain ⟨l1, l2, rfl⟩ := List.append_of_mem hmem
  have hlen : (l1 ++ s :: l2).length ≠ 0 := by simp
  have hstep : ∀ z : Int, z + 25 ≤ (s :: l2).foldl sigStep z := by
    intro z
    have h1 : sigStep z s = z + 25 := by
      unfold sigStep
      rw [hobv]
      simp [confPoints, hconf]
    calc z + 25 = sigStep z s := h1.symm
      _ ≤ l2.foldl sigStep (sigStep z s) := foldl_sigStep_ge l2 _
      _ = (s :: l2).foldl sigStep z := by simp
  have hfold : 25 ≤ (l1 ++ s :: l2).foldl sigStep 0 := by
    rw [List.foldl_append]
    calc (25 : Int) = 0 + 25 := by ring
      _ ≤ (0 : Int) + 25 + (l1.foldl sigStep 0 - 0) := by
          have := foldl_sigStep_ge l1 0; omega
      _ = l1.foldl sigStep 0 + 25 := by ring
      _ ≤ (s :: l2).foldl sigStep (l1.foldl sigStep 0) := hstep _
  rw [calculateSignatureScore_eq_foldl]
  rw [if_neg hlen]
  have hb : (0 : Int) ≤ min (((l1 ++ s :: l2).length : Int) * 3) 15 := by
    have : (0 : Int) ≤ ((l1 ++ s :: l2).length : Int) * 3 := by positivity
    omega
  split_ifs with h2 <;> omega

theorem cgiScore_nonneg (c : SimpleColorResult) : 0 ≤ calculateCGIScore c := by
  unfold calculateCGIScore
  split_ifs with h
  · exact le_refl _
  · rw [round_eq]
    have : (0 : ℚ) ≤ (c.confidence : ℚ) / 100 * 30 + 1 / 2 := by positivity
    exact_mod_cast Int.le_floor.mpr (by exact_mod_cast this)

theorem urlScore_nonneg (up fp : Option String) : 0 ≤ calculateURLScore up fp := by
  unfold calculateURLScore
  rcases up with _ | c <;> rcases fp with _ | d <;> simp only [min_def] <;>
    split_ifs <;> omega

/-- Any outcome built over a signature list containing a
high-confidence, non-obvious match is classified `isAI`. -/
theorem outcome_isAI_of_high (sigs : List Signature) (cgi : Option SimpleColorResult)
    (up fp : Option String)
    (h : ∃ s ∈ sigs, s.confidence = "high" ∧ isObviousSig s = false) :
    (analyzeMediaOutcome sigs cgi up fp).isAI = true := by
  have hsig := sigscore_ge_25 sigs h
  have hcgi : 0 ≤ (match cgi with | none => (0 : Int) | some c => calculateCGIScore c) := by
    rcases cgi with _ | c
    · exact le_refl _
    · exact cgiScore_nonneg c
  have hurl := urlScore_nonneg up fp
  unfold analyzeMediaOutcome
  simp only [decide_eq_true_eq]
  split_ifs with hov
  · omega
  · omega

/-! ## Claim theorems -/

/-- C1.  The claim says a pixel-read (CORS) failure must yield a
neutral fallback that never by itself causes `isAI = true`.  The code
violates it: `AIDetector.simpleColorCount`'s catch branch reports
`metrics.uniqueColors = 0`, which `analyzeMedia`'s `hasDefinitiveAI`
check (`uniqueColors < 50`) turns into `aiScore = 100`, `isAI = true`,
confidence "high" — with no signature or URL evidence at all.  (The
separate `CGIDetector.getFallbackAnalysis` fallback is indeed neutral
and tagged `corsBlocked`, but the unified path does not use it.) -/
theorem c1_cors_fallback_triggers_definitive : ∀ msg : String,
    (simpleColorCountCatch msg).metricsUniqueColors = 0 ∧
    (analyzeMediaOutcome [] (some (simpleColorCountCatch msg)) none none).aiScore = 100 ∧
    (analyzeMediaOutcome [] (some (simpleColorCountCatch msg)) none none).isAI = true ∧
    (analyzeMediaOutcome [] (some (simpleColorCountCatch msg)) none none).confidence = "high" ∧
    getFallbackAnalysis.corsBlocked = true ∧ getFallbackAnalysis.uniqueColors = 500 := by
  intro msg
  exact ⟨rfl, rfl, rfl, rfl, rfl, rfl⟩

/-- C2. Whenever a sampled pixel analysis reports
`metrics.uniqueColors < 50`, `analyzeMedia` classifies with the maximum
score 100, `isAI = true` and confidence "high", regardless of the
signature list and the URL/filename pattern evidence. -/
theorem c2_definitive_low_color (sigs : List Signature) (c : SimpleColorResult)
    (up fp : Option String) (h : c.metricsUniqueColors < 50) :
    (analyzeMediaOutcome sigs (some c) up fp).aiScore = 100 ∧
    (analyzeMediaOutcome sigs (some c) up fp).isAI = true ∧
    (analyzeMediaOutcome sigs (some c) up fp).confidence = "high" := by
  have hd : decide (c.metricsUniqueColors < 50) = true := decide_eq_true h
  unfold analyzeMediaOutcome
  simp [hd, calculateUnifiedConfidence]

/-- C2 witness: a uniform-color sampled image yields 1 unique color,
and the outcome is the definitive classification. -/
theorem c2_definitive_low_color_witness :
    (simpleColorCount pixels32).metricsUniqueColors < 50 ∧
    (analyzeMediaOutcome [] (some (simpleColorCount pixels32)) none none).aiScore = 100 ∧
    (analyzeMediaOutcome [] (some (simpleColorCount pixels32)) none none).isAI = true ∧
    (analyzeMediaOutcome [] (some (simpleColorCount pixels32)) none none).confidence = "high" := by
  refine ⟨by decide, ?_⟩
  exact c2_definitive_low_color [] (simpleColorCount pixels32) none none (by decide)

/-- C3.  The claim (and the code's own comment "Return immediately with
max score for obvious AI signatures") says the signature evidence is
clamped to its maximum on an obvious tool match.  The code violates
it: the `return 100` sits inside a `forEach` callback, so it only
skips the callback and the obvious match contributes 0 points —
`calculateSignatureScore` returns 0 for a lone Midjourney match.  The
final `aiScore` does still reach 100, via the separate
`hasObviousAISignatures` check in `analyzeMedia`. -/
theorem c3_obvious_signature_score :
    calculateSignatureScore [mjSig] = 0 ∧
    hasObviousAISignatures [mjSig] = true ∧
    (analyzeMediaOutcome [mjSig] none none none).aiScore = 100 ∧
    (analyzeMediaOutcome [mjSig] none none none).isAI = true := by
  refine ⟨by decide, by decide, by decide, by decide⟩

/-- C9.  The claim says every `PixelMetrics` has `gradientRatio` in
[0,1].  The first `CGIDetector.analyzePixelPatterns` violates it: it
returns `Math.round(gradientRatio * 100)`, an integer percentage.  On
a uniform opaque image (modelled by `pixels32`) it returns 50, which
exceeds 1 — while its own caller `analyzeImage` compares the value
against the fractional thresholds 0.7/0.8. -/
theorem c9_gradient_percentage :
    (analyzePixelPatternsA pixels32).gradientRate = 50 ∧
    ¬((analyzePixelPatternsA pixels32).gradientRate ≤ 1) ∧
    (analyzePixelPatternsA pixels32).uniqueColors = 1 := by
  have hs : (strideIdx pixels32.length 16).filter (fun i => !skipTransparent pixels32 i) =
      [0, 16] := by decide
  have hg : [0, 16].filter (fun i => smoothStep16 pixels32 i) = [0] := by decide
  have hk : ([0, 16].map (fun i => colorKeyAt pixels32 i 32)).dedup.length = 1 := by decide
  have hval : (analyzePixelPatternsA pixels32).gradientRate = 50 := by
    simp only [analyzePixelPatternsA]
    rw [hs, hg]
    norm_num [round_eq]
  have huniq : (analyzePixelPatternsA pixels32).uniqueColors = 1 := by
    simp only [analyzePixelPatternsA]
    rw [hs]
    exact hk
  exact ⟨hval, by rw [hval]; norm_num, huniq⟩

/-- C4. `HeaderParser.calculateConfidence` implements exactly the
claimed ordinal rule: high if ≥1 high match or (high+medium) ≥ 2;
otherwise medium if ≥1 medium or ≥2 low; otherwise low if exactly 1
low; otherwise none (none for the empty list). -/
theorem c4_aggregate_confidence (sigs : List Signature) :
    calculateConfidence sigs = specAggregateConfidence sigs := by
  unfold calculateConfidence specAggregateConfidence
  rcases sigs with _ | ⟨a, l⟩
  · simp
  · simp only [List.length_cons, Nat.succ_ne_zero, if_false]
    split_ifs <;> first | rfl | omega

/-- C10 counterexample. The claim says `Unknown` is returned exactly
when no magic-byte rule of the priority table matches.  The 3-byte
input FF D8 FF satisfies the table's JPEG rule (offset 0: FF D8 FF),
yet `detectFileType` returns "Unknown" because of its global
`length < 4` guard. -/
theorem c10_short_jpeg_unknown :
    detectFileType c10Jpeg3 = "Unknown" ∧ jpegCond c10Jpeg3 = true ∧
      codeAnyMagic c10Jpeg3 = true := by
  refine ⟨by decide, by decide, by decide⟩

set_option maxHeartbeats 1000000 in
/-- C10 amended. Detection is total, producing only the enumerated
tags; inputs shorter than 4 bytes always yield `Unknown`; otherwise
`Unknown` is returned exactly when none of the implemented
priority-ordered magic-byte rules matches; and the bare 8-byte PNG
signature is detected as PNG. -/
theorem c10_detect_unknown_iff :
    (∀ b : List Nat, detectFileType b ∈ containerTags) ∧
    (∀ b : List Nat, detectFileType b = "Unknown" ↔
      (b.length < 4 ∨ codeAnyMagic b = false)) ∧
    detectFileType pngSignatureBytes = "PNG" := by
  refine ⟨?_, ?_, by decide⟩
  · intro b
    unfold detectFileType
    by_cases hlen : b.length < 4
    · simp [hlen, containerTags]
    · rw [if_neg hlen]
      cases h1 : jpegCond b with
      | true => simp [containerTags]
      | false => cases h2 : pngCond b with
        | true => simp [containerTags]
        | false => cases h3 : gifCond b with
          | true => simp [containerTags]
          | false => cases h4 : webpCond b with
            | true => simp [containerTags]
            | false => cases h5 : avifCond b with
              | true => simp [containerTags]
              | false => cases h6 : tiffCond b with
                | true => simp [containerTags]
                | false => cases h7 : mp4Cond b with
                  | true => simp [containerTags]
                  | false => cases h8 : webmCond b with
                    | true => simp [containerTags]
                    | false => cases h9 : aviCond b with
                      | true => simp [containerTags]
                      | false => cases h10 : movCond b with
                        | true => simp [containerTags]
                        | false => simp [containerTags]
  · intro b
    by_cases hlen : b.length < 4
    · simp [detectFileType, hlen]
    · unfold detectFileType codeAnyMagic
      rw [if_neg hlen]
      cases h1 : jpegCond b with
      | true => simp [hlen]
      | false => cases h2 : pngCond b with
        | true => simp [hlen]
        | false => cases h3 : gifCond b with
          | true => simp [hlen]
          | false => cases h4 : webpCond b with
            | true => simp [hlen]
            | false => cases h5 : avifCond b with
              | true => simp [hlen]
              | false => cases h6 : tiffCond b with
                | true => simp [hlen]
                | false => cases h7 : mp4Cond b with
                  | true => simp [hlen]
                  | false => cases h8 : webmCond b with
                    | true => simp [hlen]
                    | false => cases h9 : aviCond b with
                      | true => simp [hlen]
                      | false => cases h10 : movCond b with
                        | true => simp [hlen]
                        | false => simp [hlen]

/-- C5 counterexample. A field text containing two distinct catalog
fingerprints ("midjourney" and "dall-e"): both entries fire, but
`SimpleSignatureDb.containsAISignature` returns only the first, and
`HeaderParser.checkForAISignatures` therefore pushes exactly one
`SignatureMatch`, not two. -/
theorem c5_first_match_only :
    (allCatalogMatches c5Catalog c5Text).length = 2 ∧
    containsAISignature c5Catalog c5Text = some (mkDbMatch "midjourney") ∧
    (checkForAISignatures (containsAISignature c5Catalog) c5Text "PNG tEXt text"
        initState).signatures.length = 1 := by
  refine ⟨by decide, by decide, by decide⟩

/-- Helper: `find?` returns the head of the filtered list. -/
theorem find?_eq_head?_filter (p : α → Bool) (l : List α) :
    l.find? p = (l.filter p).head? := by
  induction l with
  | nil => rfl
  | cons a t ih =>
      by_cases h : p a
      · rw [List.find?_cons_of_pos _ h, List.filter_cons_of_pos h]
        rfl
      · rw [List.find?_cons_of_neg _ h, List.filter_cons_of_neg h]
        exact ih

/-- Helper: no catalog entry fires on an empty text. -/
theorem catalogHit_empty (t s : String) (ht : t.length = 0) : catalogHit t s = false := by
  have hdata : t.data = [] := by
    have : t.data.length = 0 := ht
    exact List.length_eq_zero.mp this
  unfold catalogHit strContains
  rcases hcs : (jsToLower s).data with _ | ⟨c, cs⟩
  · have hlen : (jsToLower s).length = 0 := by
      show (jsToLower s).data.length = 0
      rw [hcs]; rfl
    simp [hlen]
  · have : (jsToLower t).data = [] := by simp [jsToLower, hdata]
    simp [this, List.infix_nil]

/-- C5 amended. The matcher short-circuits: `containsAISignature`
returns precisely the FIRST catalog entry that fires (in catalog
order, entries of length ≤ 2 skipped) — the head of the list of all
matching entries — and `checkForAISignatures` adds at most one
signature per field. -/
theorem c5_matcher_first_of_all :
    (∀ (catalog : List String) (text : String),
      containsAISignature catalog text =
        (allCatalogMatches catalog text).head?.map mkDbMatch) ∧
    (∀ (db : String → Option DbMatch) (text source : String) (st : ParseState),
      (checkForAISignatures db text source st).signatures.length ≤
        st.signatures.length + 1) := by
  constructor
  · intro catalog text
    unfold containsAISignature allCatalogMatches
    split_ifs with h
    · have : catalog.filter (catalogHit text) = [] := by
        apply List.filter_eq_nil_iff.mpr
        intro s _
        simp [catalogHit_empty text s h]
      rw [this]
      rfl
    · rw [find?_eq_head?_filter]
  · intro db text source st
    unfold checkForAISignatures
    split_ifs
    · omega
    · rcases db text with _ | m <;> simp

/-- Appending a signature under a condition preserves membership. -/
theorem mem_pushIf {c : Prop} [Decidable c] {st : ParseState} {x s : Signature}
    (h : s ∈ st.signatures) :
    s ∈ (if c then { st with signatures := st.signatures ++ [x] } else st).signatures := by
  split_ifs
  · exact List.mem_append_left _ h
  · exact h

/-- Any text containing at least two of `analyzeAIParameters`'s
parameter tokens makes it emit the high-confidence stable-diffusion
parameter-block signature (which is not an "obvious tool" match for
the unified scorer). -/
theorem helper_sd_mem (text ctype keyword : String) (st : ParseState)
    (h : 2 ≤ (sdParams.filter (fun p => strContains (jsToLower text) p)).length) :
    ∃ s ∈ (analyzeAIParameters text ctype keyword st).signatures,
      s.tool = "stable-diffusion" ∧ s.confidence = "high" ∧ s.stype = "parameters" ∧
      isObviousSig s = false := by
  simp only [analyzeAIParameters]
  refine ⟨⟨"stable-diffusion", "Parameter block", "parameters", "high",
    "PNG " ++ ctype ++ " " ++ (if keyword ≠ "" then "(" ++ keyword ++ ")" else ""),
    "Found SD parameters: " ++ String.intercalate ", "
      (sdParams.filter (fun p => strContains (jsToLower text) p))⟩, ?_, rfl, rfl, rfl,
    by simp only [isObviousSig]; decide⟩
  apply mem_pushIf
  apply mem_pushIf
  apply mem_pushIf
  apply mem_pushIf
  apply mem_pushIf
  rw [if_pos h]
  exact List.mem_append_right _ (List.mem_singleton_self _)

/-- Evaluation of the PNG parser on the scenario-A bytes: the chunk
loop processes the single `tEXt` chunk and exits, leaving the text
chunk's signature checks and AI-parameter analysis applied over the
stored metadata. -/
theorem c6_parse_eq (db : String → Option DbMatch) :
    parsePNG db c6Bytes initState =
      analyzeAIParameters c6Value "tEXt" "parameters"
        (checkForAISignatures db c6Value "PNG tEXt text"
          (checkForAISignatures db "parameters" "PNG tEXt keyword" c6StateA)) := by
  have hbe : be32At c6Bytes (((8 : Nat)) : Int) = 65 := by decide
  have hct : fromCharCodes (jsSlice c6Bytes (8 + 4) (8 + 8)) = "tEXt" := by decide
  have hL : c6Bytes.length = 97 := by decide
  rw [parsePNG, if_pos (show pngSigValid c6Bytes = true by decide)]
  rw [parsePNGLoop, dif_pos (show ((8 : Nat) : Int) < (c6Bytes.length : Int) - 12 by decide)]
  simp only [hbe, hct, hL]
  norm_num
  rw [if_neg (show ¬("tEXt" = "IEND") by decide)]
  rw [if_neg (show ¬(16 + (65 : Int).toNat + 4 ≤ 8) by decide)]
  rw [show 16 + (65 : Int).toNat + 4 = 85 from by decide]
  rw [show jsSlice c6Bytes 16 (16 + (65 : Int).toNat) = c6ChunkData from by decide]
  rw [show ("PNG_chunk_" ++ toString (1 : Nat) ++ "_" ++ "tEXt") = "PNG_chunk_1_tEXt" from
    by decide]
  rw [show (toString (65 : Int) ++ " bytes") = "65 bytes" from by decide]
  rw [parsePNGLoop, dif_neg (show ¬(((85 : Nat) : Int) < (c6Bytes.length : Int) - 12) by decide)]
  simp only [initState, List.nil_append]
  have hnul : splitFirstNul c6ChunkData = some (asciiBytes "parameters", asciiBytes c6Value) := by
    decide
  have hdk : decodeBytes (asciiBytes "parameters") = "parameters" := by decide
  have hdv : decodeBytes (asciiBytes c6Value) = c6Value := by decide
  simp only [parsePNGTextChunk, hnul, hdk, hdv]
  norm_num
  simp [c6StateA, show (0 : Nat) < c6Value.length from by decide,
        show (0 : Nat) < "parameters".length from by decide,
        show ¬("parameters" = "") from by decide]

/-- C6. The parameter-block detector: (a) any PNG text-chunk field
containing at least two of the six claimed vocabulary tokens receives
a high-confidence stable-diffusion signature from
`analyzeAIParameters`; (b) for any signature catalog, parsing the PNG
whose `tEXt` chunk is `parameters` = "Steps: 20, Sampler: Euler a,
CFG scale: 7, Seed: 12345" yields such a match, and the unified
analysis over the parsed signatures reports `isAI = true`. -/
theorem c6_parameter_block :
    (∀ (text ctype keyword : String) (st : ParseState), 2 ≤ sdSixCount text →
      ∃ s ∈ (analyzeAIParameters text ctype keyword st).signatures,
        s.tool = "stable-diffusion" ∧ s.confidence = "high" ∧ s.stype = "parameters") ∧
    (∀ (db : String → Option DbMatch) (cgi : Option SimpleColorResult) (up fp : Option String),
      (∃ s ∈ (parsePNG db c6Bytes initState).signatures,
        s.tool = "stable-diffusion" ∧ s.confidence = "high") ∧
      (analyzeMediaOutcome (parsePNG db c6Bytes initState).signatures cgi up fp).isAI = true) := by
  constructor
  · intro text ctype keyword st h
    have h2 : 2 ≤ (sdParams.filter (fun p => strContains (jsToLower text) p)).length := by
      unfold sdSixCount at h
      exact le_trans h (List.Sublist.length_le
        (List.Sublist.filter _ (by decide : List.Sublist sdParamsSix sdParams)))
    obtain ⟨s, hm, h1, hconf, hst, _⟩ := helper_sd_mem text ctype keyword st h2
    exact ⟨s, hm, h1, hconf, hst⟩
  · intro db cgi up fp
    obtain ⟨s, hm, h1, hconf, hst, hobv⟩ := helper_sd_mem c6Value "tEXt" "parameters"
      (checkForAISignatures db c6Value "PNG tEXt text"
        (checkForAISignatures db "parameters" "PNG tEXt keyword" c6StateA)) (by decide)
    rw [c6_parse_eq db]
    exact ⟨⟨s, hm, h1, hconf⟩, outcome_isAI_of_high _ cgi up fp ⟨s, hm, hconf, hobv⟩⟩

/-- C6 witness: the scenario-A parameter text contains 4 ≥ 2 of the
claimed vocabulary tokens, and `analyzeAIParameters` emits the
stable-diffusion match for it. -/
theorem c6_parameter_block_witness :
    2 ≤ sdSixCount c6Value ∧
    ∃ s ∈ (analyzeAIParameters c6Value "tEXt" "parameters" initState).signatures,
      s.tool = "stable-diffusion" ∧ s.confidence = "high" ∧ s.stype = "parameters" :=
  ⟨by decide, c6_parameter_block.1 c6Value "tEXt" "parameters" initState (by decide)⟩

/-- The PNG chunk loop, met with a chunk whose declared length is
negative or exceeds the remaining buffer, returns the accumulated
state unchanged: the fields recovered so far, and — because `log` is a
no-op with `debugLog = false` — no recorded warning. -/
theorem parsePNGLoop_invalid_stops (db : String → Option DbMatch) (b : List Nat)
    (offset cnt : Nat) (st : ParseState)
    (h : (offset : Int) < (b.length : Int) - 12)
    (hbad : be32At b offset < 0 ∨ (b.length : Int) - offset - 12 < be32At b offset) :
    parsePNGLoop db b offset cnt st = st := by
  rw [parsePNGLoop]
  rw [dif_pos h]
  simp only []
  rw [if_pos hbad]
  exact plog_id _ _

/-- C7 counterexample. On a valid PNG signature followed by a chunk
declaring length 4096 with 1 byte of payload space, the parser stops
and returns exactly the fields recovered before the chunk (none) — but
no warning is recorded anywhere in the result: `details` and
`parseLog` are exactly as for an untouched state, refuting the
"records a warning" part of the claim. -/
theorem c7_no_warning_recorded :
    parsePNG noDb c7Bad initState = initState ∧
    (parsePNG noDb c7Bad initState).details = [] ∧
    (parsePNG noDb c7Bad initState).parseLog = [] ∧
    (parsePNG noDb c7Bad initState).rawMetadata = [] := by
  have h : parsePNG noDb c7Bad initState = initState := by
    rw [parsePNG, if_pos (show pngSigValid c7Bad = true by decide)]
    exact parsePNGLoop_invalid_stops noDb c7Bad 8 0 initState (by decide) (by decide)
  exact ⟨h, by rw [h]; rfl, by rw [h]; rfl, by rw [h]; rfl⟩

/-- C7 amended. For every buffer, loop position and accumulated state:
if the chunk at the current offset declares a length that is negative
or exceeds the remaining buffer, the PNG chunk loop terminates
immediately and returns exactly the metadata recovered from the chunks
before it — with no warning recorded in the returned result (the
invalid-length message goes only to the disabled debug log). -/
theorem c7_truncated_chunk_stops (db : String → Option DbMatch) (b : List Nat)
    (offset cnt : Nat) (st : ParseState)
    (h : (offset : Int) < (b.length : Int) - 12)
    (hbad : be32At b offset < 0 ∨ (b.length : Int) - offset - 12 < be32At b offset) :
    parsePNGLoop db b offset cnt st = st :=
  parsePNGLoop_invalid_stops db b offset cnt st h hbad

/-- C7 witness: the amended theorem applied at the concrete malformed
input, hypotheses discharged by evaluation. -/
theorem c7_truncated_chunk_stops_witness :
    (((8 : Nat) : Int) < (c7Bad.length : Int) - 12) ∧
    ((c7Bad.length : Int) - ((8 : Nat) : Int) - 12 < be32At c7Bad ((8 : Nat) : Int)) ∧
    parsePNGLoop noDb c7Bad 8 0 initState = initState :=
  ⟨by decide, by decide,
    c7_truncated_chunk_stops noDb c7Bad 8 0 initState (by decide) (by decide)⟩

/-- The MP4 box walker on `mp4Cyc` cycles between offsets 0 and 16
forever: whatever fuel it is given runs out. -/
theorem mp4Cyc_loop_diverges : ∀ (fuel : Nat) (db : String → Option DbMatch) (st : ParseState),
    parseMP4Loop db mp4Cyc 0 st fuel = none ∧ parseMP4Loop db mp4Cyc 16 st fuel = none := by
  intro fuel
  induction fuel with
  | zero => intro db st; exact ⟨rfl, rfl⟩
  | succ n ih =>
      intro db st
      have e1 : be32At mp4Cyc 0 = 16 := by decide
      have e2 : fromCharCodes (jsSliceInt mp4Cyc (0 + 4) (0 + 8)) = "free" := by decide
      have e3 : mp4MetaTypes.contains "free" = false := by decide
      have e4 : be32At mp4Cyc 16 = -16 := by decide
      have e5 : fromCharCodes (jsSliceInt mp4Cyc (16 + 4) (16 + 8)) = "free" := by decide
      have eL : mp4Cyc.length = 32 := by decide
      constructor
      · rw [parseMP4Loop]
        simp only [e1, e2, e3, eL]
        norm_num
        exact (ih db st).2
      · rw [parseMP4Loop]
        simp only [e4, e5, e3, eL]
        norm_num
        exact (ih db st).1

/-- C8.  The claim says the MP4/MOV box walker terminates on every
byte sequence and stops on a non-positive declared box size.  The code
violates it: `offset += atomSize || 1` takes a negative size as the
step, so on `mp4Cyc` (a size-16 box at 0 and a size-(-16) box at 16)
the walk cycles 0 → 16 → 0 → ... forever — modelled by fuel
exhaustion for every fuel value. -/
theorem c8_mp4_walker_diverges (db : String → Option DbMatch) (st : ParseState) (fuel : Nat) :
    parseMP4 db mp4Cyc st fuel = none :=
  (mp4Cyc_loop_diverges fuel db st).1
